import Mathlib

/-!
Shallow embedding of the vendor-dashboard-api repository
(`app.py`, `av_client.py`, `cache.py`, `main.py`, `models.py`,
`vendor-dashboard/main.py`) and verification of its specification claims.

Modelling conventions, stated once:
* JSON documents are modelled by the inductive `JVal`; JSON numbers that the
  code consumes are integers in the payloads at hand, so `JVal.num` carries
  an `Int` (the deriver's divisions are carried out in `Rat`, exactly).
* `json.dumps`/`json.loads` round-tripping is modelled as the identity: the
  store holds `JVal` values directly (a `cache_set` always stores a value
  that round-trips).
* Wall-clock times and TTLs are whole seconds (`Int`), matching the stored
  `int(time.time())` timestamps.
* Network nondeterminism is a parameter: each embedded fetch takes the
  upstream outcome (transport failure or an HTTP response) as an argument.
* Python `int(x)` applied to payload fields is modelled by `_to_int`
  (integer-literal strings parse, everything else fails).
-/

/-- JSON values as delivered by the upstream provider and stored in the
response cache. -/
inductive JVal : Type where
  | null : JVal
  | str : String → JVal
  | num : Int → JVal
  | boolean : Bool → JVal
  | arr : List JVal → JVal
  | obj : List (String × JVal) → JVal

/-- Python truthiness of a JSON value (`if cached:`, `or` chains):
`None`, `""`, `0`, `False`, `[]`, `{}` are falsy, everything else truthy. -/
def truthy : JVal → Bool
  | .null => false
  | .str s => !s.isEmpty
  | .num n => n != 0
  | .boolean b => b
  | .arr xs => !xs.isEmpty
  | .obj fs => !fs.isEmpty

/-- First binding of a field in an association list (Python `dict` lookup;
payload dicts bind each key once). -/
def lookupField : List (String × JVal) → String → Option JVal
  | [], _ => none
  | (k, v) :: rest, f => if k = f then some v else lookupField rest f

/-- Python `d.get(field)`: `none` when the receiver is not a dict or the
field is absent. -/
def jget (j : JVal) (field : String) : Option JVal :=
  match j with
  | .obj fs => lookupField fs field
  | _ => none

/-- Whether a dict value binds a field at all (Python `field in data`),
regardless of the bound value's truthiness. -/
def jhas (j : JVal) (field : String) : Bool :=
  (jget j field).isSome

/-- Decimal digit accumulator for `pyIntOfString`. -/
def decDigitsAux : List Char → Nat → Option Nat
  | [], acc => some acc
  | c :: rest, acc =>
      if c.isDigit then decDigitsAux rest (acc * 10 + (c.toNat - 48)) else none

/-- Python `int(s)` on a string: an optional sign followed by at least one
decimal digit parses, anything else raises (`none`). (Surrounding
whitespace and digit-group underscores do not occur in the payloads at
hand and are not modelled.) -/
def pyIntOfString (s : String) : Option Int :=
  match s.toList with
  | [] => none
  | c :: rest =>
      if c = '-' then
        if rest.isEmpty then none else (decDigitsAux rest 0).map (fun n => -(n : Int))
      else if c = '+' then
        if rest.isEmpty then none else (decDigitsAux rest 0).map (fun n => (n : Int))
      else (decDigitsAux (c :: rest) 0).map (fun n => (n : Int))

/-- Python `int(x)` on a JSON field value: integer strings parse, ints pass
through, booleans coerce to 0/1, `None`/missing and everything else raise
(modelled as `none`). -/
def _to_int : Option JVal → Option Int
  | none => none
  | some .null => none
  | some (.str s) => pyIntOfString s
  | some (.num n) => some n
  | some (.boolean b) => some (if b then 1 else 0)
  | some (.arr _) => none
  | some (.obj _) => none

/-! ## `cache.py` — the SQLite response cache with schema guard -/

/-- One persisted row of the `cache` table: key, stored JSON value,
`storedAt` timestamp (`k`, `v`, `ts` in the schema). -/
abbrev CacheRows := List (String × JVal × Int)

/-- `SELECT v, ts FROM cache WHERE k=?` (primary-key lookup). -/
def rowLookup : CacheRows → String → Option (JVal × Int)
  | [], _ => none
  | (k, v, ts) :: rest, key => if k = key then some (v, ts) else rowLookup rest key

/-- `DELETE FROM cache WHERE k=?`. -/
def rowDelete : CacheRows → String → CacheRows
  | [], _ => []
  | (k, v, ts) :: rest, key =>
      if k = key then rowDelete rest key else (k, v, ts) :: rowDelete rest key

/-- `INSERT OR REPLACE INTO cache (k, v, ts) VALUES (?, ?, ?)`: upsert,
latest write wins. -/
def rowUpsert (rows : CacheRows) (key : String) (v : JVal) (ts : Int) : CacheRows :=
  match rows with
  | [] => [(key, v, ts)]
  | (k, w, t) :: rest =>
      if k = key then (key, v, ts) :: rest else (k, w, t) :: rowUpsert rest key v ts

/-- The persisted `cache` table: its column-name set (as SQLite reports it
via `PRAGMA table_info`) together with its rows. -/
structure Table where
  cols : List String
  rows : CacheRows

/-- Python set equality of two column-name lists. -/
def sameSet (l₁ l₂ : List String) : Bool :=
  l₁.all (fun c => l₂.contains c) && l₂.all (fun c => l₁.contains c)

/-- `EXPECTED_COLS = {"k", "v", "ts"}` from `cache.py`. -/
def EXPECTED_COLS : List String := ["k", "v", "ts"]

/-- `_current_cols`: the persisted column set; a database without a `cache`
table (the `sqlite3.OperationalError` branch) reports the empty set. -/
def currentCols : Option Table → List String
  | none => []
  | some t => t.cols

/-- `_recreate_cache_table`: `DROP TABLE IF EXISTS` then `CREATE TABLE`
with the three expected columns — always a fresh empty table. -/
def recreateCacheTable : Table :=
  { cols := EXPECTED_COLS, rows := [] }

/-- `_ensure` from `cache.py`: keep the table exactly when its column set
equals `EXPECTED_COLS`, otherwise drop and recreate it empty. -/
def ensureSchema (db : Option Table) : Table :=
  if sameSet (currentCols db) EXPECTED_COLS then
    match db with
    | some t => t
    | none => recreateCacheTable
  else recreateCacheTable

/-- `cache_get(key, ttl_seconds)` from `cache.py`, at wall clock `now`:
returns the payload while `now - ts ≤ ttl`, and on a stale hit deletes the
row and reports absence. Returns the read result and the post-read table. -/
def cache_get (t : Table) (key : String) (ttl now : Int) : Option JVal × Table :=
  match rowLookup t.rows key with
  | none => (none, t)
  | some (v, ts) =>
      if now - ts > ttl then (none, { t with rows := rowDelete t.rows key })
      else (some v, t)

/-- `cache_set(key, value)` from `cache.py` at wall clock `now`. -/
def cache_set (t : Table) (key : String) (v : JVal) (now : Int) : Table :=
  { t with rows := rowUpsert t.rows key v now }

/-! ## `av_client.py` — the upstream client with read-through caching -/

/-- Outcome of one attempted upstream HTTP call: the transport layer raised,
or a response arrived with the given status code and parsed JSON body.
(`av_client._fetch` never inspects the status code; `main.av_get` does.) -/
inductive Upstream : Type where
  | fail (msg : String)
  | resp (status : Nat) (data : JVal)

/-- Typed failures raised by `av_client._fetch`. -/
inductive FetchError : Type where
  | transport (msg : String)
  | alphaError (functionName symbol : String) (msg : JVal)

/-- Python `a or b or c` over optional field lookups: the first truthy value
if any, otherwise nothing (a falsy final value is equivalent to `None` for
the subsequent `if msg:` test). -/
def firstTruthy : List (Option JVal) → Option JVal
  | [] => none
  | none :: rest => firstTruthy rest
  | some v :: rest => if truthy v then some v else firstTruthy rest

/-- `_maybe_raise_alpha_error` from `av_client.py`, as the message it would
raise with: `data.get("Error Message") or data.get("Information") or
data.get("Note")`, raised only when that chain yields a truthy value. -/
def softErrorMsg (data : JVal) : Option JVal :=
  firstTruthy [jget data "Error Message", jget data "Information", jget data "Note"]

/-- `"av:" + json.dumps(params, sort_keys=True)` for the three-parameter
query dict (keys sort as apikey < function < symbol). -/
def fetchKey (fn sym apikey : String) : String :=
  "av:\x7b\"apikey\": \"" ++ apikey ++ "\", \"function\": \"" ++ fn ++
    "\", \"symbol\": \"" ++ sym ++ "\"\x7d"

/-- The network half of `_fetch`: issue the call, raise on transport
failure, raise on a truthy soft-error message, otherwise cache and return
the payload. -/
def fetchFromNet (t : Table) (key fn sym : String) (now : Int) (up : Upstream) :
    Except FetchError JVal × Table :=
  match up with
  | .fail m => (.error (.transport m), t)
  | .resp _ data =>
      match softErrorMsg data with
      | some msg => (.error (.alphaError fn sym msg), t)
      | none => (.ok data, cache_set t key data now)

/-- `_fetch(params)` from `av_client.py`: consult the cache first
(`if cached: return cached` — a Python truthiness test), otherwise go to
the network. Returns the outcome and the resulting cache table. -/
def _fetch (t : Table) (fn sym apikey : String) (ttl now : Int) (up : Upstream) :
    Except FetchError JVal × Table :=
  let key := fetchKey fn sym apikey
  let res := cache_get t key ttl now
  match res.1 with
  | some v =>
      if truthy v then (.ok v, res.2)
      else fetchFromNet res.2 key fn sym now up
  | none => fetchFromNet res.2 key fn sym now up

/-- The claim's notion of "contains a recognized soft-error field": one of
the three provider error keys is bound in the payload, whatever its value. -/
def hasSoftErrField (data : JVal) : Bool :=
  jhas data "Error Message" || jhas data "Information" || jhas data "Note"

/-! ## `app.py` — the metrics deriver -/

/-- `(inc or {}).get(field) or []`: the reports list under a field of the
income-statement payload; a falsy payload or a missing/falsy field yields
the empty list. Payloads bind report fields to arrays; a truthy non-array
value (on which the Python code would raise at the later indexing) is
outside the payload shapes the endpoints handle. -/
def getReports (inc : JVal) (field : String) : List JVal :=
  match jget inc field with
  | some (.arr xs) => xs
  | _ => []

/-- `_latest_annual` from `app.py`: `reports[0] if reports else None`. -/
def _latest_annual (inc : JVal) : Option JVal :=
  (getReports inc "annualReports").head?

/-- `_sum_last4_quarterly_revenue` from `app.py`: with fewer than four
quarterly reports, `None`; otherwise the loop total of
`_to_int(q[i].get("totalRevenue")) or 0` over `i = 0..3`, returned only
when strictly positive. -/
def _sum_last4_quarterly_revenue (inc : JVal) : Option Int :=
  let q := getReports inc "quarterlyReports"
  if q.length < 4 then none
  else
    let total := (List.range 4).foldl
      (fun acc i => acc + (_to_int (jget (q.getD i JVal.null) "totalRevenue")).getD 0) 0
    if total > 0 then some total else none

/-- `_yoy_revenue` from `app.py`: with fewer than two annual reports,
`None`; otherwise `(cur - prev) / prev` unless `cur is None or not prev`
(i.e. `prev` is `None` or `0`). Division is exact, in `Rat`. -/
def _yoy_revenue (inc : JVal) : Option Rat :=
  let a := getReports inc "annualReports"
  if a.length < 2 then none
  else
    match _to_int (jget (a.getD 0 JVal.null) "totalRevenue"),
          _to_int (jget (a.getD 1 JVal.null) "totalRevenue") with
    | some c, some p => if p = 0 then none else some (((c : Rat) - (p : Rat)) / (p : Rat))
    | some _, none => none
    | none, _ => none

/-- `_revenue_flag` from `app.py` (the `threshold` parameter defaults to
3 000 000 000 at its only call site, in `api_compare`). -/
def _revenue_flag (revenue : Option Int) (threshold : Int) : Option String :=
  match revenue with
  | none => none
  | some r => some (if r < threshold then "LOW" else "OK")

/-- The flag block of `derive_metrics` in `main.py` (and
`vendor-dashboard/main.py`): `LOW_REVENUE` when TTM revenue is present and
strictly under 5 000 000 000, `NEG_YOY_REVENUE` when YoY is present and
strictly negative; flags accumulate in that order. -/
def deriveFlags (revenue_ttm yoy : Option Rat) : List String :=
  (match revenue_ttm with
    | some r => if r < 5000000000 then ["LOW_REVENUE"] else []
    | none => []) ++
  (match yoy with
    | some y => if y < 0 then ["NEG_YOY_REVENUE"] else []
    | none => [])

/-- An income-statement payload whose `annualReports` carry the given
`totalRevenue` values, most recent first. -/
def incomeOfAnnual (revs : List JVal) : JVal :=
  .obj [("annualReports", .arr (revs.map (fun r => .obj [("totalRevenue", r)])))]

/-- An income-statement payload whose `quarterlyReports` carry the given
`totalRevenue` values, most recent first. -/
def incomeOfQuarterly (revs : List JVal) : JVal :=
  .obj [("quarterlyReports", .arr (revs.map (fun r => .obj [("totalRevenue", r)])))]

/-- The claim's reading of the quarterly TTM fallback, stated from its
words for comparison with the source's `_sum_last4_quarterly_revenue`:
whenever at least four quarterly reports exist, the sum of the four most
recent `totalRevenue` values; null only when fewer than four exist. -/
def sumLast4ClaimSpec (inc : JVal) : Option Int :=
  let q := getReports inc "quarterlyReports"
  if q.length < 4 then none
  else some (((q.take 4).map (fun r => (_to_int (jget r "totalRevenue")).getD 0)).sum)

/-! ## `app.py` — the priming endpoint -/

/-- Substring occurrence on character lists (Python `needle in hay`). -/
def containsSub (needle hay : List Char) : Bool :=
  match hay with
  | [] => needle.isEmpty
  | c :: t => needle.isPrefixOf (c :: t) || containsSub needle t

/-- ASCII lowercasing of one character (`str.lower` on the messages at
hand). -/
def lowerChar (c : Char) : Char :=
  if 'A' ≤ c ∧ c ≤ 'Z' then Char.ofNat (c.toNat + 32) else c

/-- `str(e).lower()` as a character list. -/
def lowerStr (s : String) : List Char :=
  s.toList.map lowerChar

/-- The early-stop test of `api_prime`:
`"quota" in str(e).lower() or "limit" in str(e).lower()`. -/
def quotaSignal (e : String) : Bool :=
  containsSub ("quota".toList) (lowerStr e) || containsSub ("limit".toList) (lowerStr e)

/-- One line of the `primed` summary: `{"symbol": s, "ok": ..., "error": ...}`. -/
structure PrimeEntry where
  symbol : String
  ok : Bool
  error : Option String
deriving DecidableEq

/-- The fixed vendor roster primed by `api_prime`. -/
def PRIME_VENDORS : List String := ["TEL", "ST", "DD", "CE", "LYB"]

/-- The summary entry `api_prime` records for one symbol, given the
combined outcome of its two fetches (`get_overview` then
`get_income_statement`; the per-call `asyncio.sleep` delays carry no
state and are not modelled). -/
def entryOf (fetch : String → Except String Unit) (s : String) : PrimeEntry :=
  match fetch s with
  | .ok _ => ⟨s, true, none⟩
  | .error e => ⟨s, false, some e⟩

/-- The `for s in vendors:` loop of `api_prime`: on success append an `ok`
entry; on failure append an error entry and `break` out of the loop when
the message carries a quota/limit signal. -/
def primeLoop (fetch : String → Except String Unit) : List String → List PrimeEntry
  | [] => []
  | s :: rest =>
      match fetch s with
      | .ok _ => ⟨s, true, none⟩ :: primeLoop fetch rest
      | .error e => ⟨s, false, some e⟩ ::
          (if quotaSignal e then [] else primeLoop fetch rest)

/-- `api_prime` from `app.py`: prime the fixed roster sequentially. The
function is total — every per-symbol exception is caught and recorded, so
the endpoint always returns its summary. -/
def api_prime (fetch : String → Except String Unit) : List PrimeEntry :=
  primeLoop fetch PRIME_VENDORS

/-- A fetch outcome used to instantiate C8: `DD` hits the provider's rate
limit, every other symbol succeeds. -/
def primeFetchExample : String → Except String Unit :=
  fun s => if s = "DD" then .error "rate limit exceeded" else .ok ()

/-! ## `main.py` — the near-duplicate FastAPI backend (`av_get`, flags) -/

/-- ASCII uppercasing of one character. -/
def upperChar (c : Char) : Char :=
  if 'a' ≤ c ∧ c ≤ 'z' then Char.ofNat (c.toNat - 32) else c

/-- `s.upper()` on the ASCII ticker symbols at hand. -/
def upperStr (s : String) : String :=
  ⟨s.toList.map upperChar⟩

namespace MainPy

/-- Typed failures of `main.py`'s `av_get` (the raised `HTTPException`s). -/
inductive AvError : Type where
  | missingKey
  | transportFail (msg : String)
  | httpStatus (status : Nat)
  | softError (status : Nat) (msg : String)

/-- `if not API_KEY:` — a configured credential must be present and
non-empty. -/
def keyTruthy : Option String → Bool
  | none => false
  | some s => !s.isEmpty

/-- `main.py`'s `cache_get(cache_key)`: passive staleness (no deletion on
a stale read). -/
def cache_get (rows : CacheRows) (key : String) (ttl now : Int) : Option JVal :=
  match rowLookup rows key with
  | none => none
  | some (v, ts) => if now - ts > ttl then none else some v

/-- `main.py`'s `cache_set` (`REPLACE INTO`). -/
def cache_set (rows : CacheRows) (key : String) (v : JVal) (now : Int) : CacheRows :=
  rowUpsert rows key v now

/-- `"Note" in data or "Information" in data or "Error Message" in data`
(with the `isinstance(data, dict)` guard): key presence, regardless of the
bound value. -/
def hasAnyErrorKey (data : JVal) : Bool :=
  jhas data "Note" || jhas data "Information" || jhas data "Error Message"

/-- `data.get("Note") or data.get("Information") or data.get("Error
Message") or "Alpha Vantage error"`. The provider binds these keys to
strings; a non-string truthy value does not occur in the payloads at
hand. -/
def softMsg (data : JVal) : String :=
  match firstTruthy [jget data "Note", jget data "Information", jget data "Error Message"] with
  | some (.str s) => s
  | _ => "Alpha Vantage error"

/-- `429 if "frequency" in msg.lower() or "limit" in msg.lower() else 502`. -/
def softStatus (msg : String) : Nat :=
  if containsSub ("frequency".toList) (lowerStr msg) ||
      containsSub ("limit".toList) (lowerStr msg)
  then 429 else 502

/-- The network half of `av_get`: check the credential (`ensure_api_key`),
issue the call, reject non-200 statuses, reject payloads carrying an error
key, otherwise cache and return. -/
def avNet (apiKey : Option String) (rows : CacheRows) (key : String) (now : Int)
    (up : Upstream) : Except AvError JVal × CacheRows :=
  if keyTruthy apiKey then
    match up with
    | .fail m => (.error (.transportFail m), rows)
    | .resp status data =>
        if status ≠ 200 then (.error (.httpStatus status), rows)
        else if hasAnyErrorKey data then
          (.error (.softError (softStatus (softMsg data)) (softMsg data)), rows)
        else (.ok data, cache_set rows key data now)
  else (.error .missingKey, rows)

/-- `av_get(function, symbol)` from `main.py`: consult the cache first
(`if cached: return cached`), and only on a miss check the credential and
go upstream. -/
def av_get (apiKey : Option String) (rows : CacheRows) (fn sym : String)
    (ttl now : Int) (up : Upstream) : Except AvError JVal × CacheRows :=
  let key := fn ++ ":" ++ upperStr sym
  match cache_get rows key ttl now with
  | some v => if truthy v then (.ok v, rows) else avNet apiKey rows key now up
  | none => avNet apiKey rows key now up

end MainPy

/-- Module initialisation of `av_client.py`: `API_KEY =
os.getenv("ALPHAVANTAGE_API_KEY")` followed by `if not API_KEY: raise
RuntimeError(...)` — construction fails outright on a missing or empty
credential. -/
def avClientInit (apiKey : Option String) : Except String Unit :=
  if MainPy.keyTruthy apiKey then .ok ()
  else .error "Missing ALPHAVANTAGE_API_KEY. Put it in .env at project root"

/-! ## `app.py` / `models.py` — the batch comparison endpoint, and
`vendor-dashboard/main.py` — the draft batch endpoint -/

/-- `VendorComparisonRow` from `models.py`. -/
structure VendorComparisonRow where
  symbol : String
  name : String
  sector : Option String
  industry : Option String
  marketCap : Option Int
  revenueTTM : Option Int
  ebitdaTTM : Option Int
  yoyRevenue : Option Rat
  fiscalYear : Option String
  revenue : Option Int
  netIncome : Option Int
  revenueFlag : Option String

/-- `VENDOR_SYMBOLS` from `app.py`. -/
def VENDOR_SYMBOLS : List (String × String) :=
  [("TEL", "TE Connectivity"), ("ST", "Sensata Technologies"),
   ("DD", "DuPont de Nemours"), ("CE", "Celanese"), ("LYB", "LyondellBasell")]

/-- `VENDOR_SYMBOLS.get(s, s)`: the static display-name fallback. -/
def vendorName (s : String) : String :=
  match VENDOR_SYMBOLS.lookup s with
  | some n => n
  | none => s

/-- An `Optional[str]` field of a payload dict (the provider binds these
fields to strings when present). -/
def strField (j : JVal) (f : String) : Option String :=
  match jget j f with
  | some (.str s) => some s
  | _ => none

/-- `(ov.get("Name") if isinstance(ov, dict) else None) or
VENDOR_SYMBOLS.get(s, s)`: the provider's name when present and truthy,
else the static fallback (total — every symbol resolves to a name). -/
def nameOf (ov : JVal) (s : String) : String :=
  match jget ov "Name" with
  | some (.str n) => if n.isEmpty then vendorName s else n
  | _ => vendorName s

/-- The minimal degraded row `api_compare` appends when a symbol fails:
symbol plus static display name, every other field null. -/
def fallbackRow (s : String) : VendorComparisonRow :=
  ⟨s, vendorName s, none, none, none, none, none, none, none, none, none, none⟩

/-- The fully derived row `api_compare` builds from the two payloads of
one symbol. -/
def compareRow (s : String) (ov inc : JVal) : VendorComparisonRow :=
  let latest := _latest_annual inc
  let revenue_annual := match latest with
    | some l => _to_int (jget l "totalRevenue")
    | none => none
  { symbol := s
    name := nameOf ov s
    sector := strField ov "Sector"
    industry := strField ov "Industry"
    marketCap := _to_int (jget ov "MarketCapitalization")
    revenueTTM := _sum_last4_quarterly_revenue inc
    ebitdaTTM := _to_int (jget ov "EBITDA")
    yoyRevenue := _yoy_revenue inc
    fiscalYear := match latest with
      | some l => strField l "fiscalDateEnding"
      | none => none
    revenue := revenue_annual
    netIncome := match latest with
      | some l => _to_int (jget l "netIncome")
      | none => none
    revenueFlag := _revenue_flag revenue_annual 3000000000 }

/-- `api_compare` from `app.py`: one row per requested symbol in request
order; a failing symbol (its `fetch` models the `get_overview` /
`get_income_statement` pair raising) degrades to `fallbackRow`, the others
proceed. -/
def api_compare (fetch : String → Except String (JVal × JVal)) :
    List String → List VendorComparisonRow
  | [] => []
  | symbol :: rest =>
      (match fetch (upperStr symbol) with
        | .ok (ov, inc) => compareRow (upperStr symbol) ov inc
        | .error _ => fallbackRow (upperStr symbol)) :: api_compare fetch rest

/-- The `vendors` loop of `vendor-dashboard/main.py`: `out.append(
derive_metrics(s))` with NO per-symbol exception handling — the first
failing derivation propagates and aborts the whole batch. -/
def vendorsLoop (derive : String → Except String JVal) :
    List String → Except String (List JVal)
  | [] => .ok []
  | s :: rest =>
      match derive s with
      | .error e => .error e
      | .ok r =>
          match vendorsLoop derive rest with
          | .error e => .error e
          | .ok rs => .ok (r :: rs)

/-- A derivation outcome used to exercise C4: `ST` fails (quota), other
symbols derive fine. -/
def deriveExample : String → Except String JVal :=
  fun s => if s = "ST" then .error "quota exceeded"
           else .ok (.obj [("symbol", .str s)])

/-- The same scenario for `api_compare`'s fetch pair. -/
def compareFetchExample : String → Except String (JVal × JVal) :=
  fun s => if s = "ST" then .error "quota exceeded"
           else .ok (.obj [("Name", .str "X")], .obj [])

/-! ## Claim theorems and supporting lemmas -/

theorem rowLookup_rowUpsert (rows : CacheRows) (key : String) (v : JVal) (ts : Int) :
    rowLookup (rowUpsert rows key v ts) key = some (v, ts) := by
  induction rows with
  | nil => simp [rowUpsert, rowLookup]
  | cons hd tl ih =>
      obtain ⟨k, w, t⟩ := hd
      by_cases h : k = key
      · simp [rowUpsert, rowLookup, h]
      · simp [rowUpsert, rowLookup, h, ih]

theorem rowLookup_rowDelete (rows : CacheRows) (key : String) :
    rowLookup (rowDelete rows key) key = none := by
  induction rows with
  | nil => simp [rowDelete, rowLookup]
  | cons hd tl ih =>
      obtain ⟨k, w, t⟩ := hd
      by_cases h : k = key
      · simp [rowDelete, h, ih]
      · simp [rowDelete, rowLookup, h, ih]

/-- **C1.** TTL boundary, in both cited implementations: an entry written
at time `T` is returned by a `get` at time `now` with time-to-live `ttl`
exactly when `now - T ≤ ttl`; strictly beyond the boundary it is treated
as absent (`now - ts > ttl_seconds` resp. `now - ts > TTL` is the
staleness test, so equality at the boundary is still valid). -/
theorem cache_ttl_boundary (t : Table) (rows : CacheRows) (key : String)
    (v : JVal) (T ttl now : Int) :
    (cache_get (cache_set t key v T) key ttl now).1 =
      (if now - T ≤ ttl then some v else none) ∧
    MainPy.cache_get (MainPy.cache_set rows key v T) key ttl now =
      (if now - T ≤ ttl then some v else none) := by
  by_cases h : now - T ≤ ttl
  · constructor <;>
      simp [cache_get, cache_set, MainPy.cache_get, MainPy.cache_set,
        rowLookup_rowUpsert, h, show ¬now - T > ttl by omega]
  · constructor <;>
      simp [cache_get, cache_set, MainPy.cache_get, MainPy.cache_set,
        rowLookup_rowUpsert, h, show now - T > ttl by omega]

/-- **C3.** Schema guard of `cache.py`: after `_ensure` the table's column
set is exactly the expected `{k, v, ts}`; and whenever the persisted column
set differed from the expected one (including the no-table case), the table
is recreated empty, so every previously stored key reads back as absent. -/
theorem schema_guard_wipe (db : Option Table) :
    sameSet (ensureSchema db).cols EXPECTED_COLS = true ∧
    (sameSet (currentCols db) EXPECTED_COLS = false →
      (ensureSchema db).rows = [] ∧
      ∀ key ttl now, (cache_get (ensureSchema db) key ttl now).1 = none) := by
  constructor
  · by_cases h : sameSet (currentCols db) EXPECTED_COLS = true
    · cases db with
      | none => simp [currentCols, sameSet, EXPECTED_COLS] at h
      | some t =>
          unfold ensureSchema
          rw [if_pos h]
          exact h
    · unfold ensureSchema
      rw [if_neg h]
      decide
  · intro h
    have he : ensureSchema db = recreateCacheTable := by
      unfold ensureSchema
      rw [if_neg (by simp [h])]
    refine ⟨by rw [he]; rfl, fun key ttl now => ?_⟩
    rw [he]
    rfl

/-- Closed instance for C3: a table persisted under the old
`cache_key/payload/ts` schema is detected as drifted and its keys read back
absent after `_ensure`. -/
theorem schema_guard_wipe_witness :
    sameSet (currentCols (some ⟨["cache_key", "payload", "ts"],
        [("OVERVIEW:TEL", JVal.obj [], 5)]⟩)) EXPECTED_COLS = false ∧
    (cache_get (ensureSchema (some ⟨["cache_key", "payload", "ts"],
        [("OVERVIEW:TEL", JVal.obj [], 5)]⟩)) "OVERVIEW:TEL" 86400 100).1 = none :=
  ⟨by decide,
   ((schema_guard_wipe (some ⟨["cache_key", "payload", "ts"],
        [("OVERVIEW:TEL", JVal.obj [], 5)]⟩)).2 (by decide)).2 "OVERVIEW:TEL" 86400 100⟩

/-- After a read, the row under the key is either untouched or gone (lazy
stale deletion) — never a new payload. -/
theorem cache_get_post_lookup (t : Table) (key : String) (ttl now : Int) :
    rowLookup (cache_get t key ttl now).2.rows key = rowLookup t.rows key ∨
    rowLookup (cache_get t key ttl now).2.rows key = none := by
  unfold cache_get
  cases h : rowLookup t.rows key with
  | none => left; simpa using h
  | some p =>
      obtain ⟨v, ts⟩ := p
      by_cases hs : now - ts > ttl
      · right; simp [hs, rowLookup_rowDelete]
      · left
        simp only [hs, if_false]
        exact h

/-- **C2, counterexample.** The claim fails on `av_client._fetch` as
stated: the payload `{"Note": ""}` contains a recognized soft-error field
(`Note`), yet the truthiness test `if msg:` does not fire on the empty
string, so the fetch does not raise and the payload IS stored in the cache
(on an empty cache, at `now = 100`). -/
theorem fetch_soft_error_empty_note_cached :
    hasSoftErrField (JVal.obj [("Note", JVal.str "")]) = true ∧
    (_fetch recreateCacheTable "OVERVIEW" "TEL" "K" 86400 100
        (.resp 200 (JVal.obj [("Note", JVal.str "")]))).1 =
      .ok (JVal.obj [("Note", JVal.str "")]) ∧
    rowLookup (_fetch recreateCacheTable "OVERVIEW" "TEL" "K" 86400 100
        (.resp 200 (JVal.obj [("Note", JVal.str "")]))).2.rows
        (fetchKey "OVERVIEW" "TEL" "K") =
      some (JVal.obj [("Note", JVal.str "")], 100) :=
  ⟨rfl, rfl, rfl⟩

/-- **C2, amended.** `av_client._fetch` writes the cache only when the
upstream call succeeds: whenever the transport call fails, or the response
payload carries a *truthy* value under one of the recognized soft-error
fields (`Error Message` / `Information` / `Note`), the fetch raises, the
resulting table is exactly the post-read table (no write occurs), and the
row under the request's key is either the pre-existing one or gone — never
a failure payload. (Requires that no fresh truthy cached value short-circuits
the upstream call; a soft-error field bound to a falsy value — the
counterexample — escapes detection and is cached.) -/
theorem fetch_failure_leaves_cache_unwritten
    (t : Table) (fn sym apikey : String) (ttl now : Int) (up : Upstream)
    (hmiss : ∀ v, (cache_get t (fetchKey fn sym apikey) ttl now).1 = some v →
      truthy v = false)
    (hfail : (∃ m, up = .fail m) ∨
      (∃ s data, up = .resp s data ∧ (softErrorMsg data).isSome)) :
    (∃ e, (_fetch t fn sym apikey ttl now up).1 = .error e) ∧
    (_fetch t fn sym apikey ttl now up).2 =
      (cache_get t (fetchKey fn sym apikey) ttl now).2 ∧
    (rowLookup (_fetch t fn sym apikey ttl now up).2.rows (fetchKey fn sym apikey) =
        rowLookup t.rows (fetchKey fn sym apikey) ∨
      rowLookup (_fetch t fn sym apikey ttl now up).2.rows (fetchKey fn sym apikey) =
        none) := by
  have hnet : ∀ t', (∃ e, (fetchFromNet t' (fetchKey fn sym apikey) fn sym now up).1 =
      .error e) ∧ (fetchFromNet t' (fetchKey fn sym apikey) fn sym now up).2 = t' := by
    intro t'
    rcases hfail with ⟨m, rfl⟩ | ⟨s, data, rfl, hsoft⟩
    · exact ⟨⟨.transport m, rfl⟩, rfl⟩
    · rcases hmsg : softErrorMsg data with _ | msg
      · rw [hmsg] at hsoft; simp at hsoft
      · exact ⟨⟨.alphaError fn sym msg, by simp [fetchFromNet, hmsg]⟩,
          by simp [fetchFromNet, hmsg]⟩
  have hfetch : _fetch t fn sym apikey ttl now up =
      fetchFromNet (cache_get t (fetchKey fn sym apikey) ttl now).2
        (fetchKey fn sym apikey) fn sym now up := by
    simp only [_fetch]
    rcases hc : (cache_get t (fetchKey fn sym apikey) ttl now).1 with _ | v
    · rfl
    · simp [hmiss v hc]
  refine ⟨?_, ?_, ?_⟩
  · rw [hfetch]; exact (hnet _).1
  · rw [hfetch]; exact (hnet _).2
  · rw [hfetch, (hnet _).2]
    exact cache_get_post_lookup t (fetchKey fn sym apikey) ttl now

/-- Closed instance for the amended C2: on an empty cache, a response whose
`Note` holds a real rate-limit message raises and stores nothing. -/
theorem fetch_failure_leaves_cache_unwritten_witness :
    (∀ v, (cache_get recreateCacheTable (fetchKey "OVERVIEW" "TEL" "K") 86400 100).1 =
        some v → truthy v = false) ∧
    (∃ e, (_fetch recreateCacheTable "OVERVIEW" "TEL" "K" 86400 100
        (.resp 200 (JVal.obj [("Note", JVal.str "API call frequency limit reached")]))).1 =
      .error e) ∧
    rowLookup (_fetch recreateCacheTable "OVERVIEW" "TEL" "K" 86400 100
        (.resp 200 (JVal.obj [("Note", JVal.str "API call frequency limit reached")]))).2.rows
      (fetchKey "OVERVIEW" "TEL" "K") = none :=
  have h := fetch_failure_leaves_cache_unwritten recreateCacheTable
    "OVERVIEW" "TEL" "K" 86400 100
    (.resp 200 (JVal.obj [("Note", JVal.str "API call frequency limit reached")]))
    (fun v hv => by exact absurd hv (by simp [cache_get, recreateCacheTable, rowLookup]))
    (Or.inr ⟨200, JVal.obj [("Note", JVal.str "API call frequency limit reached")], rfl, rfl⟩)
  ⟨fun v hv => absurd hv (by simp [cache_get, recreateCacheTable, rowLookup]),
   h.1, by
    rcases h.2.2 with h' | h'
    · rw [h']; rfl
    · exact h'⟩

/-- **C10.** Truthiness gate on the read path of `av_client._fetch`: a
fresh cached value that is falsy (the empty JSON object in particular) is
never served — the fetch behaves exactly as a cache miss, contacting
upstream and, on a successful payload, overwriting the entry under the key
with the new payload at the current time. -/
theorem falsy_cached_value_refetched
    (t : Table) (fn sym apikey : String) (ttl now : Int) (up : Upstream) (v : JVal)
    (h : (cache_get t (fetchKey fn sym apikey) ttl now).1 = some v)
    (hv : truthy v = false) :
    _fetch t fn sym apikey ttl now up =
      fetchFromNet (cache_get t (fetchKey fn sym apikey) ttl now).2
        (fetchKey fn sym apikey) fn sym now up ∧
    (∀ s data, up = .resp s data → softErrorMsg data = none →
      (_fetch t fn sym apikey ttl now up).1 = .ok data ∧
      rowLookup (_fetch t fn sym apikey ttl now up).2.rows (fetchKey fn sym apikey) =
        some (data, now)) := by
  have hfetch : _fetch t fn sym apikey ttl now up =
      fetchFromNet (cache_get t (fetchKey fn sym apikey) ttl now).2
        (fetchKey fn sym apikey) fn sym now up := by
    simp only [_fetch]
    rw [h]
    simp [hv]
  refine ⟨hfetch, fun s data hup hsoft => ?_⟩
  subst hup
  rw [hfetch]
  refine ⟨?_, ?_⟩
  · simp [fetchFromNet, hsoft]
  · simp [fetchFromNet, hsoft, cache_set, rowLookup_rowUpsert]

/-- Closed instance for C10: a successful fetch stores the empty object
`{}`; a later fetch of the same key finds it fresh but falsy, goes back
upstream, and overwrites it with the new payload. -/
theorem falsy_cached_value_refetched_witness :
    (_fetch recreateCacheTable "OVERVIEW" "TEL" "K" 86400 0
        (.resp 200 (JVal.obj []))).2.rows =
      [(fetchKey "OVERVIEW" "TEL" "K", JVal.obj [], 0)] ∧
    (cache_get ⟨EXPECTED_COLS, [(fetchKey "OVERVIEW" "TEL" "K", JVal.obj [], 0)]⟩
        (fetchKey "OVERVIEW" "TEL" "K") 86400 50).1 = some (JVal.obj []) ∧
    truthy (JVal.obj []) = false ∧
    (_fetch ⟨EXPECTED_COLS, [(fetchKey "OVERVIEW" "TEL" "K", JVal.obj [], 0)]⟩
        "OVERVIEW" "TEL" "K" 86400 50
        (.resp 200 (JVal.obj [("Name", JVal.str "TE Connectivity")]))).1 =
      .ok (JVal.obj [("Name", JVal.str "TE Connectivity")]) ∧
    rowLookup (_fetch ⟨EXPECTED_COLS, [(fetchKey "OVERVIEW" "TEL" "K", JVal.obj [], 0)]⟩
        "OVERVIEW" "TEL" "K" 86400 50
        (.resp 200 (JVal.obj [("Name", JVal.str "TE Connectivity")]))).2.rows
      (fetchKey "OVERVIEW" "TEL" "K") =
      some (JVal.obj [("Name", JVal.str "TE Connectivity")], 50) :=
  have h := falsy_cached_value_refetched
    ⟨EXPECTED_COLS, [(fetchKey "OVERVIEW" "TEL" "K", JVal.obj [], 0)]⟩
    "OVERVIEW" "TEL" "K" 86400 50
    (.resp 200 (JVal.obj [("Name", JVal.str "TE Connectivity")]))
    (JVal.obj []) (by simp [cache_get, rowLookup]) rfl
  ⟨rfl, by simp [cache_get, rowLookup], rfl,
   (h.2 200 (JVal.obj [("Name", JVal.str "TE Connectivity")]) rfl rfl).1,
   (h.2 200 (JVal.obj [("Name", JVal.str "TE Connectivity")]) rfl rfl).2⟩

/-- **C5.** Year-over-year revenue growth: whenever `_yoy_revenue` yields a
value, at least two annual reports exist, both revenues parsed, the
prior-year revenue is non-null and non-zero, and the value is the exact
decimal fraction `(cur - prev) / prev`; whenever fewer than two reports
exist or the prior revenue is unparsable/null or zero, the result is null.
Annual revenues `["120", "100"]` give `0.20`; `["100", "0"]` and a single
report give null. -/
theorem yoy_revenue_spec (inc : JVal) :
    (∀ q, _yoy_revenue inc = some q →
      2 ≤ (getReports inc "annualReports").length ∧
      ∃ c p, _to_int (jget ((getReports inc "annualReports").getD 0 JVal.null)
          "totalRevenue") = some c ∧
        _to_int (jget ((getReports inc "annualReports").getD 1 JVal.null)
          "totalRevenue") = some p ∧
        p ≠ 0 ∧ q = ((c : Rat) - (p : Rat)) / (p : Rat)) ∧
    ((getReports inc "annualReports").length < 2 ∨
      _to_int (jget ((getReports inc "annualReports").getD 1 JVal.null)
        "totalRevenue") = none ∨
      _to_int (jget ((getReports inc "annualReports").getD 1 JVal.null)
        "totalRevenue") = some 0 →
      _yoy_revenue inc = none) ∧
    _yoy_revenue (incomeOfAnnual [.str "120", .str "100"]) = some (1 / 5 : Rat) ∧
    _yoy_revenue (incomeOfAnnual [.str "100", .str "0"]) = none ∧
    _yoy_revenue (incomeOfAnnual [.str "100"]) = none := by
  refine ⟨?_, ?_, ?_, by decide, by decide⟩
  case refine_3 =>
    simp +decide [_yoy_revenue, incomeOfAnnual, getReports, jget, lookupField, _to_int,
      pyIntOfString, decDigitsAux]
    norm_num
  · intro q hq
    rcases hA : getReports inc "annualReports" with _ | ⟨a0, A⟩
    · simp [_yoy_revenue, hA] at hq
    · rcases A with _ | ⟨a1, rest⟩
      · simp [_yoy_revenue, hA] at hq
      · rcases hc : _to_int (jget a0 "totalRevenue") with _ | c
        · simp [_yoy_revenue, hA, hc] at hq
        · rcases hp : _to_int (jget a1 "totalRevenue") with _ | p
          · simp [_yoy_revenue, hA, hc, hp] at hq
          · by_cases hz : p = 0
            · simp [_yoy_revenue, hA, hc, hp, hz] at hq
            · refine ⟨by simp [hA], c, p, by simp [hA, hc], by simp [hA, hp], hz, ?_⟩
              simp [_yoy_revenue, hA, hc, hp, hz] at hq
              exact hq.symm
  · intro h
    rcases hA : getReports inc "annualReports" with _ | ⟨a0, A⟩
    · simp [_yoy_revenue, hA]
    · rcases A with _ | ⟨a1, rest⟩
      · simp [_yoy_revenue, hA]
      · rcases h with hlen | hp | hp
        · rw [hA] at hlen; simp at hlen; omega
        · rw [hA] at hp
          simp only [List.getD_cons_succ, List.getD_cons_zero] at hp
          rcases hc : _to_int (jget a0 "totalRevenue") with _ | c <;>
            simp [_yoy_revenue, hA, hc, hp]
        · rw [hA] at hp
          simp only [List.getD_cons_succ, List.getD_cons_zero] at hp
          rcases hc : _to_int (jget a0 "totalRevenue") with _ | c <;>
            simp [_yoy_revenue, hA, hc, hp]

/-- Closed instance for C5: the `["120", "100"]` payload satisfies the
premise of the forward direction, which then pins the computed fraction. -/
theorem yoy_revenue_spec_witness :
    _yoy_revenue (incomeOfAnnual [.str "120", .str "100"]) = some (1 / 5 : Rat) ∧
    2 ≤ (getReports (incomeOfAnnual [.str "120", .str "100"]) "annualReports").length :=
  ⟨(yoy_revenue_spec (incomeOfAnnual [.str "120", .str "100"])).2.2.1,
   ((yoy_revenue_spec (incomeOfAnnual [.str "120", .str "100"])).1 (1 / 5 : Rat)
      (yoy_revenue_spec (incomeOfAnnual [.str "120", .str "100"])).2.2.1).1⟩

/-- `List.range 4`, spelt out. -/
theorem range4 : List.range 4 = [0, 1, 2, 3] := rfl

/-- **C6, counterexample.** Four quarterly reports all reporting revenue
`"0"`: the claim's reading yields the sum `0`, but
`_sum_last4_quarterly_revenue` has the extra `total > 0` gate and yields
null — the code's result is not "the sum of the four most recent quarterly
totalRevenue values" whenever that sum is not positive. -/
theorem sum_last4_zero_quarters_counterexample :
    (getReports (incomeOfQuarterly [.str "0", .str "0", .str "0", .str "0"])
      "quarterlyReports").length = 4 ∧
    sumLast4ClaimSpec (incomeOfQuarterly [.str "0", .str "0", .str "0", .str "0"]) =
      some 0 ∧
    _sum_last4_quarterly_revenue
      (incomeOfQuarterly [.str "0", .str "0", .str "0", .str "0"]) = none :=
  ⟨by decide, by decide, by decide⟩

/-- **C6, amended.** The quarterly-derived TTM revenue is null whenever
fewer than four quarterly reports exist (never a partial sum), and with at
least four reports it equals the sum of the four most recent
`totalRevenue` values (unparsable ones counted as 0) provided that sum is
strictly positive, null otherwise. Quarterly revenues `[10,20,30,40]`
yield `100`; three reports yield null. -/
theorem sum_last4_quarterly_amended (inc : JVal) :
    ((getReports inc "quarterlyReports").length < 4 →
      _sum_last4_quarterly_revenue inc = none) ∧
    (4 ≤ (getReports inc "quarterlyReports").length →
      _sum_last4_quarterly_revenue inc =
        (if 0 < (((getReports inc "quarterlyReports").take 4).map
            (fun r => (_to_int (jget r "totalRevenue")).getD 0)).sum
         then some ((((getReports inc "quarterlyReports").take 4).map
            (fun r => (_to_int (jget r "totalRevenue")).getD 0)).sum)
         else none)) ∧
    _sum_last4_quarterly_revenue
      (incomeOfQuarterly [.str "10", .str "20", .str "30", .str "40"]) = some 100 ∧
    _sum_last4_quarterly_revenue
      (incomeOfQuarterly [.str "10", .str "20", .str "30"]) = none := by
  refine ⟨?_, ?_, by decide, by decide⟩
  · intro h
    simp [_sum_last4_quarterly_revenue, h]
  · intro h
    rcases hQ : getReports inc "quarterlyReports" with _ | ⟨q0, _ | ⟨q1, _ | ⟨q2, _ | ⟨q3, rest⟩⟩⟩⟩ <;>
      rw [hQ] at h <;> simp at h
    case cons.cons.cons.cons =>
      simp [_sum_last4_quarterly_revenue, hQ, range4]
      split_ifs with h1 h2 h2 <;> first
        | rfl
        | (exfalso; omega)
        | (congr 1; omega)

/-- Closed instance for the amended C6: both implications applied at
concrete payloads (four reports summing to 100; a single report). -/
theorem sum_last4_quarterly_amended_witness :
    4 ≤ (getReports (incomeOfQuarterly [.str "10", .str "20", .str "30", .str "40"])
        "quarterlyReports").length ∧
    _sum_last4_quarterly_revenue
        (incomeOfQuarterly [.str "10", .str "20", .str "30", .str "40"]) =
      (if 0 < (((getReports (incomeOfQuarterly [.str "10", .str "20", .str "30", .str "40"])
            "quarterlyReports").take 4).map
          (fun r => (_to_int (jget r "totalRevenue")).getD 0)).sum
       then some ((((getReports (incomeOfQuarterly [.str "10", .str "20", .str "30", .str "40"])
            "quarterlyReports").take 4).map
          (fun r => (_to_int (jget r "totalRevenue")).getD 0)).sum)
       else none) ∧
    (getReports (incomeOfQuarterly [.str "5"]) "quarterlyReports").length < 4 ∧
    _sum_last4_quarterly_revenue (incomeOfQuarterly [.str "5"]) = none :=
  ⟨by decide,
   (sum_last4_quarterly_amended
      (incomeOfQuarterly [.str "10", .str "20", .str "30", .str "40"])).2.1 (by decide),
   by decide,
   (sum_last4_quarterly_amended (incomeOfQuarterly [.str "5"])).1 (by decide)⟩

/-- **C7.** Strict low-revenue classification. In `app.py`'s
`_revenue_flag` (threshold 3 000 000 000 at its call site): a non-null
revenue maps to `LOW` exactly when strictly below the threshold, so the
threshold itself is `OK` and one unit below is `LOW`, and null revenue
yields no flag. In the `derive_metrics` flag block of `main.py` (threshold
5 000 000 000): revenue exactly at the threshold produces no
`LOW_REVENUE` flag, one unit below produces it, and null revenue never
produces it. -/
theorem revenue_flag_strict_threshold :
    (∀ r : Int, _revenue_flag (some r) 3000000000 =
      some (if r < 3000000000 then "LOW" else "OK")) ∧
    _revenue_flag (some 3000000000) 3000000000 = some "OK" ∧
    _revenue_flag (some 2999999999) 3000000000 = some "LOW" ∧
    (∀ th : Int, _revenue_flag none th = none) ∧
    deriveFlags (some 5000000000) none = [] ∧
    deriveFlags (some 4999999999) none = ["LOW_REVENUE"] ∧
    (∀ yoy : Option Rat, "LOW_REVENUE" ∉ deriveFlags none yoy) := by
  refine ⟨fun r => rfl, by norm_num [_revenue_flag], by norm_num [_revenue_flag],
    fun th => rfl, by norm_num [deriveFlags], by norm_num [deriveFlags], ?_⟩
  intro yoy
  rcases yoy with _ | y
  · simp [deriveFlags]
  · by_cases hy : y < 0 <;> simp [deriveFlags, hy]

theorem primeLoop_quota_stop (fetch : String → Except String Unit)
    (pre : List String) (sFail e : String) (post : List String)
    (hpre : ∀ s ∈ pre, ∀ m, fetch s = .error m → quotaSignal m = false)
    (hfail : fetch sFail = .error e) (hq : quotaSignal e = true) :
    primeLoop fetch (pre ++ sFail :: post) =
      pre.map (entryOf fetch) ++ [⟨sFail, false, some e⟩] := by
  induction pre with
  | nil => simp [primeLoop, hfail, hq]
  | cons s rest ih =>
      have hih := ih (fun x hx m hm => hpre x (List.mem_cons_of_mem s hx) m hm)
      cases hf : fetch s with
      | ok u => simp [primeLoop, hf, hih, entryOf]
      | error m =>
          have : quotaSignal m = false := hpre s (List.mem_cons_self s rest) m hf
          simp [primeLoop, hf, this, hih, entryOf]

theorem map_symbol_entryOf (fetch : String → Except String Unit) (l : List String) :
    (l.map (entryOf fetch)).map PrimeEntry.symbol = l := by
  induction l with
  | nil => rfl
  | cons s rest ih =>
      have : (entryOf fetch s).symbol = s := by
        unfold entryOf; cases fetch s <;> rfl
      simp [this, ih]

/-- **C8.** Priming stops at the first quota/limit signal: if the roster
splits as `pre ++ [sFail] ++ post` where no symbol of `pre` fails with a
quota/limit-flavoured message and `sFail`'s fetch fails with one, then the
endpoint's summary (it always returns one — `api_prime` is total, every
exception is caught) covers exactly the symbols up to and including
`sFail`, in roster order, and none of `post` is attempted. -/
theorem prime_stops_on_quota (fetch : String → Except String Unit)
    (pre post : List String) (sFail e : String)
    (hroster : PRIME_VENDORS = pre ++ sFail :: post)
    (hpre : ∀ s ∈ pre, ∀ m, fetch s = .error m → quotaSignal m = false)
    (hfail : fetch sFail = .error e) (hq : quotaSignal e = true) :
    api_prime fetch = pre.map (entryOf fetch) ++ [⟨sFail, false, some e⟩] ∧
    (api_prime fetch).map PrimeEntry.symbol = pre ++ [sFail] := by
  have h : api_prime fetch = pre.map (entryOf fetch) ++ [⟨sFail, false, some e⟩] := by
    rw [api_prime, hroster]
    exact primeLoop_quota_stop fetch pre sFail e post hpre hfail hq
  refine ⟨h, ?_⟩
  rw [h, List.map_append, map_symbol_entryOf fetch pre]
  rfl

/-- Closed instance for C8: with `DD` failing on a rate-limit message, the
summary covers exactly `TEL`, `ST`, `DD` and stops. -/
theorem prime_stops_on_quota_witness :
    primeFetchExample "DD" = .error "rate limit exceeded" ∧
    quotaSignal "rate limit exceeded" = true ∧
    api_prime primeFetchExample =
      [⟨"TEL", true, none⟩, ⟨"ST", true, none⟩,
       ⟨"DD", false, some "rate limit exceeded"⟩] := by
  refine ⟨rfl, by decide, ?_⟩
  have h := (prime_stops_on_quota primeFetchExample ["TEL", "ST"] ["CE", "LYB"]
    "DD" "rate limit exceeded" rfl
    (by
      intro s hs m hm
      fin_cases hs <;> simp [primeFetchExample] at hm)
    rfl (by decide)).1
  rw [h]
  rfl

/-- **C9, counterexample.** With no credential configured, a fetch CAN
still return a payload in `main.py`: `av_get` consults the cache before
`ensure_api_key`, so a fresh truthy cached entry is served without any
credential check — the claim's "with the credential absent, no fetch can
return a payload" fails at this input (key `OVERVIEW:TEL` cached at
`ts = 50`, read at `now = 60`, TTL 86400). -/
theorem av_get_missing_key_counterexample :
    MainPy.keyTruthy none = false ∧
    (MainPy.av_get none
        [("OVERVIEW:TEL", JVal.obj [("Name", JVal.str "TE Connectivity")], 50)]
        "OVERVIEW" "TEL" 86400 60 (.fail "never reached")).1 =
      .ok (JVal.obj [("Name", JVal.str "TE Connectivity")]) :=
  ⟨rfl, rfl⟩

/-- **C9, amended.** Construction-time: `av_client.py` raises at import
when the credential is missing or empty, so no fetch through that module
can ever run. First-use: in `main.py`, every fetch that is not served by a
fresh truthy cache entry fails with the configuration error
(`missingKey`), before any upstream contact and without touching the
store; a fresh truthy cached payload, however, is still served without a
credential. -/
theorem av_get_missing_key (apiKey : Option String) (rows : CacheRows)
    (fn sym : String) (ttl now : Int) (up : Upstream)
    (hkey : MainPy.keyTruthy apiKey = false)
    (hmiss : ∀ v, MainPy.cache_get rows (fn ++ ":" ++ upperStr sym) ttl now = some v →
      truthy v = false) :
    (∃ m, avClientInit apiKey = .error m) ∧
    MainPy.av_get apiKey rows fn sym ttl now up = (.error .missingKey, rows) := by
  constructor
  · exact ⟨"Missing ALPHAVANTAGE_API_KEY. Put it in .env at project root",
      by simp [avClientInit, hkey]⟩
  · have hnet : MainPy.avNet apiKey rows (fn ++ ":" ++ upperStr sym) now up =
        (.error .missingKey, rows) := by
      simp [MainPy.avNet, hkey]
    simp only [MainPy.av_get]
    rcases hc : MainPy.cache_get rows (fn ++ ":" ++ upperStr sym) ttl now with _ | v
    · simpa using hnet
    · simp [hmiss v hc, hnet]

/-- Closed instance for the amended C9: empty credential, empty store —
construction fails and a fetch fails with the configuration error. -/
theorem av_get_missing_key_witness :
    MainPy.keyTruthy (some "") = false ∧
    (∃ m, avClientInit (some "") = .error m) ∧
    MainPy.av_get (some "") [] "OVERVIEW" "TEL" 86400 60 (.fail "never reached") =
      (.error .missingKey, []) :=
  have h := av_get_missing_key (some "") [] "OVERVIEW" "TEL" 86400 60
    (.fail "never reached") rfl
    (fun v hv => by exact absurd hv (by simp [MainPy.cache_get, rowLookup]))
  ⟨rfl, h.1, h.2⟩

/-- **C4.** Evaluating both batch loops on the roster `TEL, ST, DD` where
`ST` fails upstream: the `vendor-dashboard/main.py` `vendors` loop
propagates the exception and the batch returns NO records (the claim's
"one record per requested symbol ... does not abort the batch" fails
there), while `app.py`'s `api_compare` returns three rows in request
order, the failed symbol degraded to the minimal fallback row and the
others fully derived. -/
theorem compare_batch_eval :
    vendorsLoop deriveExample ["TEL", "ST", "DD"] = .error "quota exceeded" ∧
    (api_compare compareFetchExample ["TEL", "ST", "DD"]).length = 3 ∧
    (api_compare compareFetchExample ["TEL", "ST", "DD"]).map
      VendorComparisonRow.symbol = ["TEL", "ST", "DD"] ∧
    (api_compare compareFetchExample ["TEL", "ST", "DD"])[1]? =
      some (fallbackRow "ST") ∧
    (api_compare compareFetchExample ["TEL", "ST", "DD"])[0]? =
      some (compareRow "TEL" (JVal.obj [("Name", JVal.str "X")]) (JVal.obj [])) :=
  ⟨rfl, rfl, rfl, rfl, rfl⟩
